import Mathlib

/-!
Shallow embedding of `src/utils.py` (weather-impact-analysis plotting
utilities).  Each plotting function is modelled as a pure function from its
inputs to a record of the drawing commands it issues to matplotlib (bar
positions and heights, tick labels, line points, axis limits, legend labels).
Python exceptions are modelled with `Except`/`Option`; machine floats are
modelled with exact rationals.
-/

/-- Labels of a pandas series index: either a numeric label or a categorical
(string) label.  `np.issubdtype(index, np.number)` holds exactly when every
label is numeric. -/
inductive Label where
  | num (q : ℚ)
  | cat (s : String)
deriving DecidableEq, Repr

/-- Numeric value of a label; only meaningful on numeric labels (the code
only reads it in the all-numeric branch). -/
def labelKey : Label → ℚ
  | Label.num q => q
  | Label.cat _ => 0

/-- Whether a label is numeric. -/
def Label.isNum : Label → Bool
  | Label.num _ => true
  | Label.cat _ => false

/-- A pandas Series of counts: an ordered list of (index label, value) pairs. -/
abbrev CountSeries := List (Label × ℚ)

/-- The dtype test `np.all(np.issubdtype(value_counts.index, np.number))` on
line 35 of utils.py: the index dtype is numeric iff every label is numeric. -/
def allNumeric (cs : CountSeries) : Bool :=
  cs.all (fun e => e.1.isNum)

/-- Comparison used by `value_counts.sort_index()` (ascending by label). -/
def leLabel (a b : Label × ℚ) : Prop :=
  labelKey a.1 ≤ labelKey b.1

instance : DecidableRel leLabel :=
  fun a b => inferInstanceAs (Decidable (labelKey a.1 ≤ labelKey b.1))

instance : IsTotal (Label × ℚ) leLabel :=
  ⟨fun a b => le_total (labelKey a.1) (labelKey b.1)⟩

instance : IsTrans (Label × ℚ) leLabel :=
  ⟨fun _ _ _ h1 h2 => le_trans h1 h2⟩

/-- Strict version of `leLabel`, used to show sorted outputs are unique. -/
def ltLabel (a b : Label × ℚ) : Prop :=
  labelKey a.1 < labelKey b.1

instance : IsAntisymm (Label × ℚ) ltLabel :=
  ⟨fun _ _ h1 h2 => absurd h2 (lt_asymm h1)⟩

/-- Model of `value_counts.sort_index()`: stable sort ascending by label. -/
def sortIndex (cs : CountSeries) : CountSeries :=
  List.insertionSort leLabel cs

/-- Model of the C-style cast `astype('int')` on a float: truncation toward
zero. -/
def ratTrunc (q : ℚ) : ℤ :=
  if 0 ≤ q then ⌊q⌋ else ⌈q⌉

/-- Model of `value_counts.mean()`: sum of the values divided by their
number (on the empty series pandas yields NaN; here the model yields the
junk value `0/0 = 0`, which the empty-input theorems never inspect because
the drawn mean line is then the empty list of points). -/
def series_mean (cs : CountSeries) : ℚ :=
  (cs.map (fun e => e.2)).sum / cs.length

/-- Drawing commands issued by `plot_time_hist`. -/
structure HistOutput where
  figsize : ℚ × ℚ
  width : ℚ
  edgecolor : String
  barX : List ℚ
  barVals : List ℚ
  xTickLabels : List Label
  meanLineY : List ℚ
  meanLineLabel : String
  title : String
  xlabel : Option String
  ylabel : Option String
deriving DecidableEq, Repr

/-- Model of `plot_time_hist` (utils.py lines 18-61).  The kwargs handled by
the code are the two defaulted ones (`width`, `edgecolor`); the branch on
line 35 picks numeric (sorted, integer-cast positions) versus categorical
(positions 0.5, 1.5, ... in input order) bar placement, and line 50 draws
the dashed mean line `[value_counts.mean()] * len(value_counts)` at the bar
x-positions with legend label "Mean". -/
def plot_time_hist (value_counts : CountSeries) (title : String)
    (xlabel ylabel : Option String) (figsize : ℚ × ℚ)
    (width : Option ℚ) (edgecolor : Option String) : HistOutput :=
  let w := width.getD 1
  let ec := edgecolor.getD "black"
  let bars :=
    if allNumeric value_counts then
      let reordered := sortIndex value_counts
      let bar_x := reordered.map (fun e => ((ratTrunc (labelKey e.1) : ℤ) : ℚ))
      (bar_x, reordered.map (fun e => e.2),
        bar_x.map (fun q => Label.num q))
    else
      ((List.range value_counts.length).map (fun x : ℕ => (1 : ℚ) / 2 + (x : ℚ)),
        value_counts.map (fun e => e.2),
        value_counts.map (fun e => e.1))
  { figsize := figsize
    width := w
    edgecolor := ec
    barX := bars.1
    barVals := bars.2.1
    xTickLabels := bars.2.2
    meanLineY := List.replicate value_counts.length (series_mean value_counts)
    meanLineLabel := "Mean"
    title := title
    xlabel := xlabel
    ylabel := ylabel }

/-- Python `list.__getitem__` with an integer index: negative indices count
from the end; anything further out raises IndexError (modelled as `none`). -/
def pyGetItem (l : List String) (i : Int) : Option String :=
  if i < 0 then
    if i + l.length < 0 then none else l[(i + l.length).toNat]?
  else l[i.toNat]?

/-- The table behind `calendar.month_abbr` (C locale): a 13-element sequence
whose entry 0 is the empty string. -/
def monthAbbrList : List String :=
  ["", "Jan", "Feb", "Mar", "Apr", "May", "Jun",
   "Jul", "Aug", "Sep", "Oct", "Nov", "Dec"]

/-- Model of `convert_month_to_abbr` (utils.py lines 137-146):
`calendar.month_abbr[int(month)]`, a plain Python sequence lookup (hence
negative indices wrap from the end). -/
def convert_month_to_abbr (month : Int) : Option String :=
  pyGetItem monthAbbrList month

/-- Drawing commands issued by `plot_months_side_by_side`: one line per
(year, series) pair, the hardcoded y-limits, and the month ticks. -/
structure MonthsOutput where
  figsize : ℚ × ℚ
  lines : List (List Label × List ℚ × String)
  title : String
  xlabel : Option String
  ylabel : Option String
  ylim : ℚ × ℚ
  xTickPositions : List ℚ
  xTickLabels : List (Option String)
deriving DecidableEq, Repr

/-- Model of `plot_months_side_by_side` (utils.py lines 63-94): plots each
series against its own index, fixes `plt.ylim(bottom=500, top=2000)`, and
labels ticks 1..12 with `convert_month_to_abbr`. -/
def plot_months_side_by_side (years : List (String × CountSeries))
    (title : String) (xlabel ylabel : Option String)
    (figsize : ℚ × ℚ) : MonthsOutput :=
  { figsize := figsize
    lines := years.map (fun p => (p.2.map (fun e => e.1), p.2.map (fun e => e.2), p.1))
    title := title
    xlabel := xlabel
    ylabel := ylabel
    ylim := (500, 2000)
    xTickPositions := (List.range 12).map (fun i : ℕ => ((i : ℚ) + 1))
    xTickLabels := (List.range 12).map (fun i : ℕ => convert_month_to_abbr ((i : ℤ) + 1)) }

/-- Sum of p-th powers of a list of abscissae (an entry of the normal matrix
of a polynomial least-squares fit). -/
def powSum (xs : List ℚ) (p : ℕ) : ℚ :=
  (xs.map (fun x => x ^ p)).sum

/-- Moment sums of the ordinates against powers of the abscissae (an entry
of the right-hand side of the normal equations). -/
def tSum (xs ys : List ℚ) (p : ℕ) : ℚ :=
  ((xs.zip ys).map (fun q => q.1 ^ p * q.2)).sum

/-- Normal matrix of the degree-`deg` least-squares problem in NumPy's
coefficient order (highest power first): entry (i, j) is the sum of
`x ^ (2*deg - i - j)`. -/
def normalMat (xs : List ℚ) (deg : ℕ) : List (List ℚ) :=
  (List.range (deg + 1)).map (fun i =>
    (List.range (deg + 1)).map (fun j => powSum xs (2 * deg - i - j)))

/-- Right-hand side of the normal equations, highest power first. -/
def normalVec (xs ys : List ℚ) (deg : ℕ) : List ℚ :=
  (List.range (deg + 1)).map (fun i => tSum xs ys (deg - i))

/-- Laplace expansion along the first row, with a fuel bound on the row
count so the recursion is structural (the fuel-0 branch is unreachable
whenever the fuel is at least the number of rows). -/
def detLAux : ℕ → List (List ℚ) → ℚ
  | _, [] => 1
  | 0, _ :: _ => 0
  | fuel + 1, r :: rows =>
      ((List.range r.length).map (fun j =>
        (-1 : ℚ) ^ j * r.getD j 0 *
          detLAux fuel (rows.map (fun row => row.eraseIdx j)))).sum

/-- Determinant of a square matrix given as rows, by Laplace expansion
along the first row. -/
def detL (M : List (List ℚ)) : ℚ :=
  detLAux M.length M

/-- Replace column `j` of a row-major matrix with the vector `v`. -/
def replaceCol (M : List (List ℚ)) (j : ℕ) (v : List ℚ) : List (List ℚ) :=
  (M.zip v).map (fun rc => rc.1.set j rc.2)

/-- Cramer-rule solution of `M c = v` (division by a zero determinant
yields 0 in ℚ, so a singular system produces all-zero coefficients). -/
def cramer (M : List (List ℚ)) (v : List ℚ) : List ℚ :=
  (List.range v.length).map (fun j => detL (replaceCol M j v) / detL M)

/-- Result of a polynomial fit: the coefficients (highest power first) and
whether NumPy's RankWarning fires. -/
structure FitResult where
  coeffs : List ℚ
  rankWarning : Bool
deriving DecidableEq, Repr

/-- Model of `np.polyfit(x, y, deg)` as called by `plot_days`: raises
TypeError on an empty or mismatched input.  When `deg ≥ 1` and every
abscissa is zero (for the ordinals `0..N-1` that `plot_days` supplies this
is exactly `N = 1`, `x = [0.]`), every positive-power Vandermonde column is
zero, NumPy's internal column scaling `lhs /= sqrt((lhs*lhs).sum(0))`
divides 0 by 0, and the NaN matrix makes the LAPACK least-squares driver
fail, so np.polyfit raises LinAlgError "SVD did not converge in Linear
Least Squares".  Otherwise it returns the least-squares coefficients
(computed by Cramer's rule on the normal equations, which at full rank
agrees with NumPy's lstsq solution) and emits a RankWarning - a warning,
not an exception - exactly when the Vandermonde rank
`min(len(x), deg+1)` is below `deg+1`, i.e. when `len(x) ≤ deg`, for the
pairwise-distinct abscissae `plot_days` supplies.  In the rank-deficient
case NumPy returns a minimal-norm solution; the model then returns
all-zero coefficients, and no theorem reads the coefficients in that
case. -/
def polyfit (xs ys : List ℚ) (deg : ℕ) : Except String FitResult :=
  if xs.length = 0 then Except.error "expected non-empty vector for x"
  else if xs.length ≠ ys.length then Except.error "expected x and y to have same length"
  else if 0 < deg ∧ ∀ x ∈ xs, x = 0 then
    Except.error "SVD did not converge in Linear Least Squares"
  else Except.ok
    { coeffs := cramer (normalMat xs deg) (normalVec xs ys deg)
      rankWarning := decide (xs.length ≤ deg) }

/-- Model of `np.poly1d(coeffs)(x)`: Horner evaluation, highest power
first. -/
def polyeval (coeffs : List ℚ) (x : ℚ) : ℚ :=
  coeffs.foldl (fun acc c => acc * x + c) 0

/-- One trend line drawn by `plot_days`: the fitted coefficients, their
evaluation at the series' ordinal positions, the color and legend label,
and whether the fit carried a RankWarning. -/
structure TrendOut where
  coeffs : List ℚ
  values : List ℚ
  color : String
  rankWarning : Bool
  label : String
deriving DecidableEq, Repr

/-- One data series drawn by `plot_days`. -/
structure DaysSeriesOut where
  xCoords : List ℚ
  yVals : List ℚ
  color : String
  label : String
  trend : Option TrendOut
deriving DecidableEq, Repr

/-- Drawing commands issued by `plot_days`. -/
structure DaysOutput where
  figsize : ℚ × ℚ
  series : List DaysSeriesOut
  title : String
  xlabel : Option String
  ylabel : Option String
deriving DecidableEq, Repr

/-- Matplotlib's default `axes.prop_cycle` color list (rcParams, ten
colors), the list behind `iter(plt.rcParams['axes.prop_cycle'].by_key()['color'])`
on line 102 of utils.py. -/
def defaultColorCycle : List String :=
  ["#1f77b4", "#ff7f0e", "#2ca02c", "#d62728", "#9467bd",
   "#8c564b", "#e377c2", "#7f7f7f", "#bcbd22", "#17becf"]

/-- Loop body of `plot_days` (utils.py lines 103-122).  The first list
argument is the remaining state of the color iterator: Python's `next` on
an exhausted iterator raises StopIteration, modelled as an error. -/
def plot_days_go (fit_trendline : Bool) (deg : ℕ)
    (override_fit_color : Option String) :
    List String → List (String × CountSeries) → Except String (List DaysSeriesOut)
  | _, [] => Except.ok []
  | [], _ :: _ => Except.error "StopIteration"
  | year_color :: colors_rest, (year, s) :: rest =>
      let x_coords := (List.range s.length).map (fun k : ℕ => (k : ℚ))
      let vals := s.map (fun e => e.2)
      let trendRes : Except String (Option TrendOut) :=
        if fit_trendline then
          match polyfit x_coords vals deg with
          | Except.error msg => Except.error msg
          | Except.ok f =>
              Except.ok (some
                { coeffs := f.coeffs
                  values := x_coords.map (fun x => polyeval f.coeffs x)
                  color := override_fit_color.getD year_color
                  rankWarning := f.rankWarning
                  label := "Least Squares fit with degree " ++ toString deg ++
                    ", year " ++ year })
        else Except.ok none
      match trendRes with
      | Except.error msg => Except.error msg
      | Except.ok tr =>
          match plot_days_go fit_trendline deg override_fit_color colors_rest rest with
          | Except.error msg => Except.error msg
          | Except.ok restOut =>
              Except.ok
                ({ xCoords := x_coords
                   yVals := vals
                   color := year_color
                   label := year
                   trend := tr } :: restOut)

/-- Model of `plot_days` (utils.py lines 96-131), parametrised by the
ambient color cycle read from rcParams. -/
def plot_days (colorCycle : List String) (years : List (String × CountSeries))
    (title : String) (xlabel ylabel : Option String) (figsize : ℚ × ℚ)
    (fit_trendline : Bool) (deg : ℕ) (override_fit_color : Option String) :
    Except String DaysOutput :=
  (plot_days_go fit_trendline deg override_fit_color colorCycle years).map
    (fun l =>
      { figsize := figsize
        series := l
        title := title
        xlabel := xlabel
        ylabel := ylabel })

/-- Trend-line values of each drawn series, when the call succeeds. -/
def trendValuesOf (r : Except String DaysOutput) :
    Except String (List (Option (List ℚ))) :=
  r.map (fun o => o.series.map (fun s => s.trend.map (fun t => t.values)))

/-- RankWarning flags of each drawn trend line, when the call succeeds. -/
def rankWarningsOf (r : Except String DaysOutput) :
    Except String (List (Option Bool)) :=
  r.map (fun o => o.series.map (fun s => s.trend.map (fun t => t.rankWarning)))

/-- Colors assigned to the drawn series, when the call succeeds. -/
def colorsOf (r : Except String DaysOutput) : Except String (List String) :=
  r.map (fun o => o.series.map (fun s => s.color))

/-- Whether an `Except` result succeeded. -/
def isOkE (r : Except String DaysOutput) : Bool :=
  match r with
  | Except.ok _ => true
  | Except.error _ => false

/-!
Theorems.
-/

/-- Modelled from the spec: the conventional fixed three-letter calendar
abbreviation table, 1 mapping to "Jan" and 12 mapping to "Dec" (refinement
target for the month-abbreviation claim). -/
def specMonthAbbr : Int → String
  | 1 => "Jan"
  | 2 => "Feb"
  | 3 => "Mar"
  | 4 => "Apr"
  | 5 => "May"
  | 6 => "Jun"
  | 7 => "Jul"
  | 8 => "Aug"
  | 9 => "Sep"
  | 10 => "Oct"
  | 11 => "Nov"
  | 12 => "Dec"
  | _ => ""

/-- C1: for every integer m with 1 ≤ m ≤ 12, `convert_month_to_abbr m`
returns the conventional three-letter abbreviation of month m, with 1
mapping to "Jan" and 12 mapping to "Dec". -/
theorem month_abbreviation_conventional (m : Int) (h1 : 1 ≤ m) (h2 : m ≤ 12) :
    convert_month_to_abbr m = some (specMonthAbbr m) := by
  interval_cases m <;> rfl

/-- Witness for C1 at the endpoints named by the claim. -/
theorem month_abbreviation_conventional_witness :
    convert_month_to_abbr 1 = some (specMonthAbbr 1) ∧
    convert_month_to_abbr 12 = some (specMonthAbbr 12) :=
  ⟨month_abbreviation_conventional 1 (by decide) (by decide),
   month_abbreviation_conventional 12 (by decide) (by decide)⟩

/-- C7 counterexample: the input -1 lies outside [1, 12], yet the lookup
does not raise an index error; it silently wraps around Python's sequence
and returns "Dec", the abbreviation of month 12. -/
theorem month_abbreviation_neg_wraps :
    ((-1 : Int) < 1 ∨ 12 < (-1 : Int)) ∧
    convert_month_to_abbr (-1) = some "Dec" := by
  exact ⟨Or.inl (by decide), rfl⟩

/-- C7 (amended): `convert_month_to_abbr` raises an index error only for
months above 12 or below -13; for months in [-13, -1] it silently wraps
around the 13-entry table (returning the entry of index month + 13, e.g.
"Dec" for -1), and month 0 returns the empty string without error. -/
theorem month_abbreviation_out_of_range (m : Int) :
    (12 < m ∨ m < -13 → convert_month_to_abbr m = none) ∧
    (-13 ≤ m → m < 0 → convert_month_to_abbr m = convert_month_to_abbr (m + 13)) ∧
    convert_month_to_abbr 0 = some "" := by
  have hlen : (monthAbbrList.length : Int) = 13 := by rfl
  refine ⟨?_, ?_, rfl⟩
  · rintro (h | h)
    · have h0 : ¬ (m < 0) := by omega
      show pyGetItem monthAbbrList m = none
      simp only [pyGetItem]
      rw [if_neg h0]
      exact List.getElem?_eq_none (by
        show monthAbbrList.length ≤ m.toNat
        omega)
    · have h0 : m < 0 := by omega
      have h1 : m + (monthAbbrList.length : Int) < 0 := by omega
      show pyGetItem monthAbbrList m = none
      simp only [pyGetItem]
      rw [if_pos h0, if_pos h1]
  · intro hlo hhi
    have h1 : ¬ (m + (monthAbbrList.length : Int) < 0) := by omega
    have h2 : ¬ (m + 13 < 0) := by omega
    show pyGetItem monthAbbrList m = pyGetItem monthAbbrList (m + 13)
    simp only [pyGetItem]
    rw [if_pos hhi, if_neg h1, if_neg h2, hlen]

/-- Witness for C7 (amended): month 13 raises, month -2 wraps to month 11. -/
theorem month_abbreviation_out_of_range_witness :
    convert_month_to_abbr 13 = none ∧
    convert_month_to_abbr (-2) = convert_month_to_abbr 11 :=
  ⟨(month_abbreviation_out_of_range 13).1 (Or.inl (by decide)),
   (month_abbreviation_out_of_range (-2)).2.1 (by decide) (by decide)⟩

/-- C3: on a non-empty series whose labels are not all numeric,
`plot_time_hist` places the bars at positions 0.5, 1.5, 2.5, ... in the
input's own iteration order, with the values in input order and the
original labels as tick labels. -/
theorem plot_time_hist_categorical (cs : CountSeries) (title : String)
    (xl yl : Option String) (fs : ℚ × ℚ) (w : Option ℚ) (ec : Option String)
    (hnum : allNumeric cs = false) ( _hne : cs ≠ []) :
    (plot_time_hist cs title xl yl fs w ec).barX
        = (List.range cs.length).map (fun x : ℕ => (1 : ℚ) / 2 + (x : ℚ)) ∧
    (plot_time_hist cs title xl yl fs w ec).barVals = cs.map (fun e => e.2) ∧
    (plot_time_hist cs title xl yl fs w ec).xTickLabels = cs.map (fun e => e.1) := by
  refine ⟨?_, ?_, ?_⟩ <;> simp [plot_time_hist, hnum]

/-- Witness for C3 at the labels ["b", "a"] named by the claim. -/
theorem plot_time_hist_categorical_witness :
    (plot_time_hist [(Label.cat "b", 1), (Label.cat "a", 2)] "t" none none
        (8, 8) none none).barX = [(1 : ℚ) / 2, 3 / 2] ∧
    (plot_time_hist [(Label.cat "b", 1), (Label.cat "a", 2)] "t" none none
        (8, 8) none none).xTickLabels = [Label.cat "b", Label.cat "a"] := by
  have h := plot_time_hist_categorical [(Label.cat "b", 1), (Label.cat "a", 2)]
    "t" none none (8, 8) none none (by decide) (by decide)
  constructor
  · rw [h.1]
    norm_num [List.range_succ]
  · rw [h.2.2]
    decide

/-- C4: on a non-empty series the dashed reference line of
`plot_time_hist` sits at the arithmetic mean of all count values (one point
per bar, all at that height), and is legended "Mean". -/
theorem plot_time_hist_mean_line (cs : CountSeries) (title : String)
    (xl yl : Option String) (fs : ℚ × ℚ) (w : Option ℚ) (ec : Option String)
    ( _hne : cs ≠ []) :
    (plot_time_hist cs title xl yl fs w ec).meanLineY
        = List.replicate cs.length ((cs.map (fun e => e.2)).sum / cs.length) ∧
    (plot_time_hist cs title xl yl fs w ec).meanLineLabel = "Mean" := by
  constructor
  · simp [plot_time_hist, series_mean]
  · simp [plot_time_hist]

/-- Witness for C4 at the values [5, 7, 10] named by the claim: the line is
at 22/3. -/
theorem plot_time_hist_mean_line_witness :
    (plot_time_hist [(Label.num 1, 5), (Label.num 2, 7), (Label.num 3, 10)]
        "t" none none (8, 8) none none).meanLineY
      = List.replicate 3 ((22 : ℚ) / 3) ∧
    (plot_time_hist [(Label.num 1, 5), (Label.num 2, 7), (Label.num 3, 10)]
        "t" none none (8, 8) none none).meanLineLabel = "Mean" := by
  have h := plot_time_hist_mean_line
    [(Label.num 1, 5), (Label.num 2, 7), (Label.num 3, 10)]
    "t" none none (8, 8) none none (by decide)
  constructor
  · rw [h.1]
    norm_num
  · exact h.2

/-- C5: `plot_months_side_by_side` always sets the y-axis bounds to exactly
(500, 2000), whatever the input collection. -/
theorem plot_months_ylim_fixed (years : List (String × CountSeries))
    (title : String) (xl yl : Option String) (fs : ℚ × ℚ) :
    (plot_months_side_by_side years title xl yl fs).ylim = (500, 2000) :=
  rfl

/-- C8 counterexample: `plot_days` on the empty collection does not raise;
it succeeds with no series drawn. -/
theorem plot_days_empty_ok :
    plot_days defaultColorCycle [] "t" none none (8, 8) false 3 none
      = Except.ok
          { figsize := (8, 8), series := [], title := "t",
            xlabel := none, ylabel := none } := rfl

/-- C8 (amended): none of the renderers validates emptiness; an empty
series or collection silently yields a degenerate chart with no bars or
lines and no error (the mean line degenerates to the empty list of points,
and `plot_days` succeeds, even with `fit_trendline` set, because the loop
body never runs). -/
theorem renderers_empty_silent :
    (plot_time_hist [] "t" none none (8, 8) none none).barX = [] ∧
    (plot_time_hist [] "t" none none (8, 8) none none).barVals = [] ∧
    (plot_time_hist [] "t" none none (8, 8) none none).meanLineY = [] ∧
    (plot_months_side_by_side [] "t" none none (8, 8)).lines = [] ∧
    (plot_months_side_by_side [("2016", [])] "t" none none (8, 8)).lines
      = [([], [], "2016")] ∧
    isOkE (plot_days defaultColorCycle [] "t" none none (8, 8) true 3 none)
      = true ∧
    isOkE (plot_days defaultColorCycle [("2016", [])] "t" none none (8, 8)
      false 3 none) = true := by
  refine ⟨rfl, rfl, rfl, rfl, rfl, rfl, rfl⟩

/-- Helper for the color-assignment theorem: the loop of `plot_days` (with
no trend fitting) consumes the color iterator one entry per series, and
raises StopIteration when the iterator runs out. -/
theorem plot_days_go_colors (deg : ℕ) (ov : Option String) :
    ∀ (years : List (String × CountSeries)) (colors : List String),
      (years.length ≤ colors.length →
        (plot_days_go false deg ov colors years).map
            (fun l => l.map (fun s => s.color))
          = Except.ok (colors.take years.length)) ∧
      (colors.length < years.length →
        plot_days_go false deg ov colors years
          = Except.error "StopIteration") := by
  intro years
  induction years with
  | nil =>
      intro colors
      constructor
      · intro _
        simp [plot_days_go, Except.map]
      · intro h
        simp at h
  | cons yc rest ih =>
      intro colors
      obtain ⟨year, s⟩ := yc
      cases colors with
      | nil =>
          constructor
          · intro h
            simp at h
          · intro _
            rfl
      | cons c ctail =>
          constructor
          · intro h
            have hrest := (ih ctail).1 (by simpa using h)
            cases hgo : plot_days_go false deg ov ctail rest with
            | error msg =>
                rw [hgo] at hrest
                simp [Except.map] at hrest
            | ok l =>
                rw [hgo] at hrest
                simp only [Except.map] at hrest
                have hl : l.map (fun s => s.color) = ctail.take rest.length :=
                  Except.ok.inj hrest
                simp [plot_days_go, hgo, Except.map, hl, List.take_succ_cons]
          · intro h
            have hrest := (ih ctail).2 (by simpa using h)
            simp [plot_days_go, hrest]

/-- C10 (amended): `plot_days` assigns each successive series the next
color of the renderer's color list in order, but the list is a one-shot
iterator, not a repeating cycle: when the collection holds more series than
there are colors, the call fails with StopIteration instead of wrapping
around. -/
theorem plot_days_color_assignment (colors : List String)
    (years : List (String × CountSeries)) (title : String)
    (xl yl : Option String) (fs : ℚ × ℚ) (deg : ℕ) (ov : Option String) :
    (years.length ≤ colors.length →
      colorsOf (plot_days colors years title xl yl fs false deg ov)
        = Except.ok (colors.take years.length)) ∧
    (colors.length < years.length →
      plot_days colors years title xl yl fs false deg ov
        = Except.error "StopIteration") := by
  constructor
  · intro h
    have hgo := (plot_days_go_colors deg ov years colors).1 h
    cases hg : plot_days_go false deg ov colors years with
    | error msg =>
        rw [hg] at hgo
        simp [Except.map] at hgo
    | ok l =>
        rw [hg] at hgo
        simp only [Except.map] at hgo
        simp [colorsOf, plot_days, hg, Except.map, Except.ok.inj hgo]
  · intro h
    have hgo := (plot_days_go_colors deg ov years colors).2 h
    simp [plot_days, hgo, Except.map]

/-- Witness for C10 (amended): two series receive the first two default
colors. -/
theorem plot_days_color_assignment_witness :
    colorsOf (plot_days defaultColorCycle
        [("2016", [(Label.num 0, 1)]), ("2017", [(Label.num 0, 1)])]
        "t" none none (8, 8) false 3 none)
      = Except.ok ["#1f77b4", "#ff7f0e"] := by
  have h := (plot_days_color_assignment defaultColorCycle
      [("2016", [(Label.num 0, 1)]), ("2017", [(Label.num 0, 1)])]
      "t" none none (8, 8) 3 none).1 (by decide)
  exact h.trans rfl

/-- C10 counterexample: eleven series against the ten default colors do not
wrap around; the call fails with StopIteration. -/
theorem plot_days_color_exhaustion :
    plot_days defaultColorCycle
      [("a", [(Label.num 0, 1)]), ("b", [(Label.num 0, 1)]),
       ("c", [(Label.num 0, 1)]), ("d", [(Label.num 0, 1)]),
       ("e", [(Label.num 0, 1)]), ("f", [(Label.num 0, 1)]),
       ("g", [(Label.num 0, 1)]), ("h", [(Label.num 0, 1)]),
       ("i", [(Label.num 0, 1)]), ("j", [(Label.num 0, 1)]),
       ("k", [(Label.num 0, 1)])]
      "t" none none (8, 8) false 3 none = Except.error "StopIteration" := rfl

/-- Unfolding lemma: a successful `np.polyfit` call with matching non-empty
inputs and no all-zero abscissae returns the Cramer solution with the rank
flag. -/
theorem polyfit_ok_of (xs ys : List ℚ) (deg : ℕ) (h0 : ¬ (xs.length = 0))
    (h1 : xs.length = ys.length)
    (h2 : ¬ (0 < deg ∧ ∀ x ∈ xs, x = 0)) :
    polyfit xs ys deg = Except.ok
      { coeffs := cramer (normalMat xs deg) (normalVec xs ys deg)
        rankWarning := decide (xs.length ≤ deg) } := by
  rw [polyfit, if_neg h0, if_neg (by omega), if_neg h2]

/-- Unfolding lemma: one iteration of the `plot_days` loop when fitting a
trend line and the polynomial fit succeeds. -/
theorem plot_days_go_single_ok (deg : ℕ) (ov : Option String) (c : String)
    (ctail : List String) (yr : String) (s : CountSeries) (f : FitResult)
    (hf : polyfit ((List.range s.length).map (fun k : ℕ => (k : ℚ)))
      (s.map (fun e => e.2)) deg = Except.ok f) :
    plot_days_go true deg ov (c :: ctail) [(yr, s)]
      = Except.ok
          [{ xCoords := (List.range s.length).map (fun k : ℕ => (k : ℚ))
             yVals := s.map (fun e => e.2)
             color := c
             label := yr
             trend := some
               { coeffs := f.coeffs
                 values := ((List.range s.length).map (fun k : ℕ => (k : ℚ))).map
                   (fun x => polyeval f.coeffs x)
                 color := ov.getD c
                 rankWarning := f.rankWarning
                 label := "Least Squares fit with degree " ++ toString deg ++
                   ", year " ++ yr } }] := by
  simp only [plot_days_go, hf]
  rfl

/-- Unfolding lemma: one iteration of the `plot_days` loop when fitting a
trend line and the polynomial fit raises; the error propagates out of the
call. -/
theorem plot_days_go_single_err (deg : ℕ) (ov : Option String) (c : String)
    (ctail : List String) (yr : String) (s : CountSeries) (msg : String)
    (hf : polyfit ((List.range s.length).map (fun k : ℕ => (k : ℚ)))
      (s.map (fun e => e.2)) deg = Except.error msg) :
    plot_days_go true deg ov (c :: ctail) [(yr, s)] = Except.error msg := by
  simp only [plot_days_go, hf]
  rfl

/-- C9 (amended): with `fit_trendline` set and a series of length N ≤ deg,
`plot_days` surfaces an error only for N = 0 (np.polyfit's TypeError on an
empty x vector) and N = 1 (the single abscissa 0 makes every
positive-power Vandermonde column zero, NumPy's column scaling produces
NaN, and the least-squares driver raises LinAlgError "SVD did not converge
in Linear Least Squares"); for 2 ≤ N ≤ deg the fit is rank-deficient,
NumPy emits only a RankWarning - a warning, not an error - and the call
still succeeds and draws the (under-determined) trend line. -/
theorem plot_days_underdetermined (yr title : String) (xl yl : Option String)
    (fs : ℚ × ℚ) (ov : Option String) (cs : CountSeries) (deg : ℕ)
    (hle : cs.length ≤ deg) :
    (cs.length = 0 →
      plot_days defaultColorCycle [(yr, cs)] title xl yl fs true deg ov
        = Except.error "expected non-empty vector for x") ∧
    (cs.length = 1 →
      plot_days defaultColorCycle [(yr, cs)] title xl yl fs true deg ov
        = Except.error "SVD did not converge in Linear Least Squares") ∧
    (2 ≤ cs.length →
      isOkE (plot_days defaultColorCycle [(yr, cs)] title xl yl fs true deg ov)
        = true ∧
      rankWarningsOf (plot_days defaultColorCycle [(yr, cs)] title xl yl fs
        true deg ov) = Except.ok [some true]) := by
  have hx : ((List.range cs.length).map (fun k : ℕ => (k : ℚ))).length = cs.length := by
    rw [List.length_map, List.length_range]
  have hy : (cs.map (fun e => e.2)).length = cs.length := by
    rw [List.length_map]
  have hcycle : defaultColorCycle
      = "#1f77b4" :: ["#ff7f0e", "#2ca02c", "#d62728", "#9467bd",
        "#8c564b", "#e377c2", "#7f7f7f", "#bcbd22", "#17becf"] := rfl
  refine ⟨?_, ?_, ?_⟩
  · intro h0
    obtain rfl : cs = [] := List.length_eq_zero.mp h0
    rfl
  · intro h1
    have hdeg : 0 < deg := by omega
    have hf : polyfit ((List.range cs.length).map (fun k : ℕ => (k : ℚ)))
        (cs.map (fun e => e.2)) deg
        = Except.error "SVD did not converge in Linear Least Squares" := by
      rw [polyfit, if_neg (by rw [hx]; omega), if_neg (by rw [hx, hy]; omega),
        if_pos]
      refine ⟨hdeg, ?_⟩
      intro x hmem
      rw [h1] at hmem
      simp only [List.range_succ, List.range_zero, List.nil_append,
        List.map_cons, List.map_nil, List.mem_singleton] at hmem
      rw [hmem]
      norm_num
    have hgo := plot_days_go_single_err deg ov "#1f77b4"
      ["#ff7f0e", "#2ca02c", "#d62728", "#9467bd",
       "#8c564b", "#e377c2", "#7f7f7f", "#bcbd22", "#17becf"] yr cs _ hf
    rw [plot_days, hcycle, hgo]
    rfl
  · intro h2
    have hnz : ¬ (cs.length = 0) := by omega
    have hf := polyfit_ok_of ((List.range cs.length).map (fun k : ℕ => (k : ℚ)))
      (cs.map (fun e => e.2)) deg (by rw [hx]; exact hnz) (by rw [hx, hy])
      (by
        rintro ⟨-, hall⟩
        have hm : ((1 : ℕ) : ℚ) ∈ (List.range cs.length).map (fun k : ℕ => (k : ℚ)) :=
          List.mem_map.mpr ⟨1, List.mem_range.mpr (by omega), rfl⟩
        have h10 := hall _ hm
        norm_num at h10)
    have hgo := plot_days_go_single_ok deg ov "#1f77b4"
      ["#ff7f0e", "#2ca02c", "#d62728", "#9467bd",
       "#8c564b", "#e377c2", "#7f7f7f", "#bcbd22", "#17becf"] yr cs _ hf
    constructor
    · rw [plot_days, hcycle, hgo]
      rfl
    · rw [rankWarningsOf, plot_days, hcycle, hgo]
      simp only [Except.map, List.map_cons, List.map_nil, Option.map_some',
        List.length_map, List.length_range]
      rw [decide_eq_true hle]

/-- Witness for C9 (amended): the empty series raises np.polyfit's
TypeError; a one-point series with degree 1 raises the least-squares
LinAlgError; a two-point series with degree 2 succeeds, flagged
rank-deficient. -/
theorem plot_days_underdetermined_witness :
    plot_days defaultColorCycle [("2016", ([] : CountSeries))] "t" none none
      (8, 8) true 2 none = Except.error "expected non-empty vector for x" ∧
    plot_days defaultColorCycle [("2017", [(Label.num 0, 5)])] "t" none none
      (8, 8) true 1 none
      = Except.error "SVD did not converge in Linear Least Squares" ∧
    rankWarningsOf (plot_days defaultColorCycle
      [("2018", [(Label.num 0, 5), (Label.num 1, 7)])]
      "t" none none (8, 8) true 2 none) = Except.ok [some true] :=
  ⟨(plot_days_underdetermined "2016" "t" none none (8, 8) none [] 2
      (by decide)).1 rfl,
   ((plot_days_underdetermined "2017" "t" none none (8, 8) none
      [(Label.num 0, 5)] 1 (by decide)).2.1 (by decide)),
   ((plot_days_underdetermined "2018" "t" none none (8, 8) none
      [(Label.num 0, 5), (Label.num 1, 7)] 2 (by decide)).2.2 (by decide)).2⟩

/-- C9 counterexample: a series of length 2 with degree 2 (so N ≤ deg) does
not surface a numerical-fit error; the call succeeds, the under-determined
fit being reported only as a RankWarning. -/
theorem plot_days_rank_deficient_ok :
    isOkE (plot_days defaultColorCycle
      [("2016", [(Label.num 0, 5), (Label.num 1, 7)])]
      "t" none none (8, 8) true 2 none) = true := by
  have hf := polyfit_ok_of
    ((List.range ([(Label.num 0, 5), (Label.num 1, 7)] : CountSeries).length).map
      (fun k : ℕ => (k : ℚ)))
    (([(Label.num 0, 5), (Label.num 1, 7)] : CountSeries).map (fun e => e.2)) 2
    (by norm_num) (by norm_num)
    (by
      rintro ⟨-, hall⟩
      have hm : ((1 : ℕ) : ℚ) ∈ (List.range
          ([(Label.num 0, 5), (Label.num 1, 7)] : CountSeries).length).map
          (fun k : ℕ => (k : ℚ)) :=
        List.mem_map.mpr ⟨1, List.mem_range.mpr (by norm_num), rfl⟩
      have h10 := hall _ hm
      norm_num at h10)
  have hgo := plot_days_go_single_ok 2 none "#1f77b4"
    ["#ff7f0e", "#2ca02c", "#d62728", "#9467bd",
     "#8c564b", "#e377c2", "#7f7f7f", "#bcbd22", "#17becf"] "2016"
    [(Label.num 0, 5), (Label.num 1, 7)] _ hf
  have hcycle : defaultColorCycle
      = "#1f77b4" :: ["#ff7f0e", "#2ca02c", "#d62728", "#9467bd",
        "#8c564b", "#e377c2", "#7f7f7f", "#bcbd22", "#17becf"] := rfl
  rw [plot_days, hcycle, hgo]
  rfl

/-- Gauss sum: sum of zeroth powers over the ordinals 0..n-1. -/
theorem sum_range_pow0 (n : ℕ) :
    ((List.range n).map (fun i : ℕ => ((i : ℚ)) ^ 0)).sum = (n : ℚ) := by
  induction n with
  | zero => simp
  | succ n ih =>
      rw [List.range_succ]
      simp only [List.map_append, List.map_cons, List.map_nil, List.sum_append,
        List.sum_cons, List.sum_nil, ih]
      push_cast
      ring

/-- Gauss sum: sum of first powers over the ordinals 0..n-1. -/
theorem sum_range_pow1 (n : ℕ) :
    ((List.range n).map (fun i : ℕ => ((i : ℚ)) ^ 1)).sum
      = (n : ℚ) * ((n : ℚ) - 1) / 2 := by
  induction n with
  | zero => simp
  | succ n ih =>
      rw [List.range_succ]
      simp only [List.map_append, List.map_cons, List.map_nil, List.sum_append,
        List.sum_cons, List.sum_nil, ih]
      push_cast
      ring

/-- Gauss sum: sum of squares over the ordinals 0..n-1. -/
theorem sum_range_pow2 (n : ℕ) :
    ((List.range n).map (fun i : ℕ => ((i : ℚ)) ^ 2)).sum
      = (n : ℚ) * ((n : ℚ) - 1) * (2 * (n : ℚ) - 1) / 6 := by
  induction n with
  | zero => simp
  | succ n ih =>
      rw [List.range_succ]
      simp only [List.map_append, List.map_cons, List.map_nil, List.sum_append,
        List.sum_cons, List.sum_nil, ih]
      push_cast
      ring

/-- Splitting a moment sum of an affine sequence into power sums. -/
theorem sum_range_lin (a b : ℚ) (p : ℕ) (n : ℕ) :
    ((List.range n).map (fun i : ℕ => ((i : ℚ)) ^ p * (a * i + b))).sum
      = a * ((List.range n).map (fun i : ℕ => ((i : ℚ)) ^ (p + 1))).sum
        + b * ((List.range n).map (fun i : ℕ => ((i : ℚ)) ^ p)).sum := by
  induction n with
  | zero => simp
  | succ n ih =>
      rw [List.range_succ]
      simp only [List.map_append, List.map_cons, List.map_nil, List.sum_append,
        List.sum_cons, List.sum_nil, ih]
      ring

/-- `powSum` on the ordinal abscissae is a sum of powers over the range. -/
theorem powSum_range (n p : ℕ) :
    powSum ((List.range n).map (fun k : ℕ => (k : ℚ))) p
      = ((List.range n).map (fun i : ℕ => ((i : ℚ)) ^ p)).sum := by
  rw [powSum, List.map_map]
  rfl

/-- `tSum` of an affine sequence on the ordinal abscissae. -/
theorem tSum_range_lin (a b : ℚ) (n p : ℕ) :
    tSum ((List.range n).map (fun k : ℕ => (k : ℚ)))
        ((List.range n).map (fun i : ℕ => a * i + b)) p
      = ((List.range n).map (fun i : ℕ => ((i : ℚ)) ^ p * (a * i + b))).sum := by
  rw [tSum, List.zip_map', List.map_map]
  rfl

/-- Two by two determinant, explicitly. -/
theorem detL_two (p q r s : ℚ) : detL [[p, q], [r, s]] = p * s - q * r := by
  show detLAux 2 [[p, q], [r, s]] = p * s - q * r
  simp [detLAux, List.range_succ, List.eraseIdx, List.getD]
  ring

/-- Cramer's rule on a two by two system, explicitly. -/
theorem cramer_two (S2 S1 S0 T1 T0 : ℚ) :
    cramer [[S2, S1], [S1, S0]] [T1, T0]
      = [detL [[T1, S1], [T0, S0]] / detL [[S2, S1], [S1, S0]],
         detL [[S2, T1], [S1, T0]] / detL [[S2, S1], [S1, S0]]] := rfl

/-- The degree-1 normal matrix, explicitly. -/
theorem normalMat_one (xs : List ℚ) :
    normalMat xs 1 = [[powSum xs 2, powSum xs 1], [powSum xs 1, powSum xs 0]] := rfl

/-- The degree-1 normal right-hand side, explicitly. -/
theorem normalVec_one (xs ys : List ℚ) :
    normalVec xs ys 1 = [tSum xs ys 1, tSum xs ys 0] := rfl

/-- Horner evaluation of a linear coefficient pair. -/
theorem polyeval_pair (u v x : ℚ) : polyeval [u, v] x = u * x + v := by
  simp [polyeval]

/-- The degree-1 least-squares fit of an exactly affine sequence over the
ordinals 0..n-1 (n at least 2) recovers the slope and intercept exactly,
with no rank warning. -/
theorem polyfit_linear (a b : ℚ) (n : ℕ) (hn : 2 ≤ n) :
    polyfit ((List.range n).map (fun k : ℕ => (k : ℚ)))
        ((List.range n).map (fun i : ℕ => a * i + b)) 1
      = Except.ok { coeffs := [a, b], rankWarning := false } := by
  have hx : ((List.range n).map (fun k : ℕ => (k : ℚ))).length = n := by
    rw [List.length_map, List.length_range]
  have hy : ((List.range n).map (fun i : ℕ => a * i + b)).length = n := by
    rw [List.length_map, List.length_range]
  have h2n : (2 : ℚ) ≤ (n : ℚ) := by exact_mod_cast hn
  have hS0 := (powSum_range n 0).trans (sum_range_pow0 n)
  have hS1 := (powSum_range n 1).trans (sum_range_pow1 n)
  have hS2 := (powSum_range n 2).trans (sum_range_pow2 n)
  have hT1 : tSum ((List.range n).map (fun k : ℕ => (k : ℚ)))
      ((List.range n).map (fun i : ℕ => a * i + b)) 1
      = a * ((n : ℚ) * ((n : ℚ) - 1) * (2 * (n : ℚ) - 1) / 6)
        + b * ((n : ℚ) * ((n : ℚ) - 1) / 2) := by
    rw [tSum_range_lin, sum_range_lin, sum_range_pow2, sum_range_pow1]
  have hT0 : tSum ((List.range n).map (fun k : ℕ => (k : ℚ)))
      ((List.range n).map (fun i : ℕ => a * i + b)) 0
      = a * ((n : ℚ) * ((n : ℚ) - 1) / 2) + b * (n : ℚ) := by
    rw [tSum_range_lin, sum_range_lin, sum_range_pow1, sum_range_pow0]
  have hD : powSum ((List.range n).map (fun k : ℕ => (k : ℚ))) 2
        * powSum ((List.range n).map (fun k : ℕ => (k : ℚ))) 0
      - powSum ((List.range n).map (fun k : ℕ => (k : ℚ))) 1
        * powSum ((List.range n).map (fun k : ℕ => (k : ℚ))) 1 ≠ 0 := by
    rw [hS0, hS1, hS2]
    have hval : (n : ℚ) * ((n : ℚ) - 1) * (2 * (n : ℚ) - 1) / 6 * (n : ℚ)
        - (n : ℚ) * ((n : ℚ) - 1) / 2 * ((n : ℚ) * ((n : ℚ) - 1) / 2)
        = (n : ℚ) ^ 2 * ((n : ℚ) - 1) * ((n : ℚ) + 1) / 12 := by ring
    rw [hval]
    have hn0 : (0 : ℚ) < (n : ℚ) := by linarith
    have hpos : (0 : ℚ) < (n : ℚ) ^ 2 * ((n : ℚ) - 1) * ((n : ℚ) + 1) / 12 := by
      apply div_pos
      · exact mul_pos (mul_pos (pow_pos hn0 2) (by linarith)) (by linarith)
      · norm_num
    exact ne_of_gt hpos
  rw [polyfit_ok_of _ _ _ (by rw [hx]; omega) (by rw [hx, hy])
      (by
        rintro ⟨-, hall⟩
        have hm : ((1 : ℕ) : ℚ) ∈ (List.range n).map (fun k : ℕ => (k : ℚ)) :=
          List.mem_map.mpr ⟨1, List.mem_range.mpr (by omega), rfl⟩
        have h10 := hall _ hm
        norm_num at h10),
    normalMat_one, normalVec_one, cramer_two, detL_two, detL_two, detL_two]
  have hwarn : decide (((List.range n).map (fun k : ℕ => (k : ℚ))).length ≤ 1)
      = false := by
    rw [hx]
    exact decide_eq_false (by omega)
  rw [hwarn]
  have key : ∀ X Y : ℚ, X = a → Y = b →
      (Except.ok { coeffs := [X, Y], rankWarning := false } :
        Except String FitResult)
      = Except.ok { coeffs := [a, b], rankWarning := false } := by
    intro X Y hX hY
    rw [hX, hY]
  apply key
  · rw [div_eq_iff hD, hT1, hT0, hS0, hS1, hS2]
    ring
  · rw [div_eq_iff hD, hT1, hT0, hS0, hS1, hS2]
    ring

/-- C6: `plot_days` with `fit_trendline` and degree 1 on a series whose
values are exactly affine in the ordinal positions 0..N-1 (N at least 2)
draws a trend line whose evaluated points equal the series' values
exactly. -/
theorem plot_days_linear_trend (a b : ℚ) (yr title : String)
    (xl yl : Option String) (fs : ℚ × ℚ) (cs : CountSeries)
    (hn : 2 ≤ cs.length)
    (hvals : cs.map (fun e => e.2)
      = (List.range cs.length).map (fun i : ℕ => a * i + b)) :
    trendValuesOf (plot_days defaultColorCycle [(yr, cs)] title xl yl fs
        true 1 none)
      = Except.ok [some (cs.map (fun e => e.2))] := by
  have hfit : polyfit ((List.range cs.length).map (fun k : ℕ => (k : ℚ)))
      (cs.map (fun e => e.2)) 1
      = Except.ok { coeffs := [a, b], rankWarning := false } := by
    rw [hvals]
    exact polyfit_linear a b cs.length hn
  have hgo := plot_days_go_single_ok 1 none "#1f77b4"
    ["#ff7f0e", "#2ca02c", "#d62728", "#9467bd",
     "#8c564b", "#e377c2", "#7f7f7f", "#bcbd22", "#17becf"] yr cs _ hfit
  have hcycle : defaultColorCycle
      = "#1f77b4" :: ["#ff7f0e", "#2ca02c", "#d62728", "#9467bd",
        "#8c564b", "#e377c2", "#7f7f7f", "#bcbd22", "#17becf"] := rfl
  rw [trendValuesOf, plot_days, hcycle, hgo]
  simp only [Except.map, List.map_cons, List.map_nil, Option.map_some']
  have hev : (((List.range cs.length).map (fun k : ℕ => (k : ℚ))).map
        (fun x => polyeval [a, b] x))
      = (List.range cs.length).map (fun i : ℕ => a * i + b) := by
    rw [List.map_map]
    exact List.map_congr_left (fun k _ => by
      show polyeval [a, b] (k : ℚ) = a * k + b
      exact polyeval_pair a b (k : ℚ))
  rw [hev, ← hvals]

/-- Witness for C6 at the series [0, 2, 4, 6] named by the claim (slope 2,
intercept 0). -/
theorem plot_days_linear_trend_witness :
    trendValuesOf (plot_days defaultColorCycle
        [("2016", [(Label.num 0, 0), (Label.num 1, 2),
                   (Label.num 2, 4), (Label.num 3, 6)])]
        "t" none none (8, 8) true 1 none)
      = Except.ok [some [0, 2, 4, 6]] := by
  have h := plot_days_linear_trend 2 0 "2016" "t" none none (8, 8)
    [(Label.num 0, 0), (Label.num 1, 2), (Label.num 2, 4), (Label.num 3, 6)]
    (by decide)
    (by norm_num [List.range_succ])
  rw [h]
  norm_num

/-- Numeric labels with equal keys are equal labels. -/
theorem label_eq_of_key (la lb : Label) (ha : la.isNum = true)
    (hb : lb.isNum = true) (h : labelKey la = labelKey lb) : la = lb := by
  cases la with
  | num qa =>
      cases lb with
      | num qb => simpa [labelKey] using h
      | cat sb => simp [Label.isNum] at hb
  | cat sa => simp [Label.isNum] at ha

/-- Distinct labels of an all-numeric series have distinct keys. -/
theorem keys_nodup_of_allNumeric (cs : CountSeries)
    (hnum : allNumeric cs = true) (hnd : (cs.map (fun e => e.1)).Nodup) :
    (cs.map (fun e => labelKey e.1)).Nodup := by
  rw [allNumeric, List.all_eq_true] at hnum
  have h1 : List.Pairwise (fun a b : Label × ℚ => a.1 ≠ b.1) cs :=
    List.pairwise_map.mp hnd
  apply List.pairwise_map.mpr
  refine h1.imp_of_mem ?_
  intro a b ha hb hab hkey
  exact hab (label_eq_of_key a.1 b.1 (hnum a ha) (hnum b hb) hkey)

/-- A weakly sorted series whose keys are distinct is strictly sorted. -/
theorem sorted_lt_of_sorted_le (l : CountSeries) (hs : List.Sorted leLabel l)
    (hnd : (l.map (fun e => labelKey e.1)).Nodup) : List.Sorted ltLabel l := by
  have h1 : List.Pairwise (fun a b : Label × ℚ => labelKey a.1 ≠ labelKey b.1) l :=
    List.pairwise_map.mp hnd
  exact (hs.and h1).imp (fun hab => lt_of_le_of_ne hab.1 hab.2)

/-- Sorting is invariant under permutation of an all-numeric series with
distinct labels: both sorts are strictly sorted permutations of the same
entries. -/
theorem sortIndex_perm_eq (cs csPerm : CountSeries) (hperm : csPerm.Perm cs)
    (hnum : allNumeric cs = true) (hnd : (cs.map (fun e => e.1)).Nodup) :
    sortIndex csPerm = sortIndex cs := by
  have hknd : (cs.map (fun e => labelKey e.1)).Nodup :=
    keys_nodup_of_allNumeric cs hnum hnd
  have hpermSort : (sortIndex csPerm).Perm (sortIndex cs) :=
    (List.perm_insertionSort leLabel csPerm).trans
      (hperm.trans (List.perm_insertionSort leLabel cs).symm)
  have hs1 : List.Sorted ltLabel (sortIndex csPerm) := by
    apply sorted_lt_of_sorted_le _ (List.sorted_insertionSort leLabel csPerm)
    have hp : ((sortIndex csPerm).map (fun e => labelKey e.1)).Perm
        (cs.map (fun e => labelKey e.1)) :=
      ((List.perm_insertionSort leLabel csPerm).trans hperm).map _
    exact hp.nodup_iff.mpr hknd
  have hs2 : List.Sorted ltLabel (sortIndex cs) := by
    apply sorted_lt_of_sorted_le _ (List.sorted_insertionSort leLabel cs)
    have hp : ((sortIndex cs).map (fun e => labelKey e.1)).Perm
        (cs.map (fun e => labelKey e.1)) :=
      (List.perm_insertionSort leLabel cs).map _
    exact hp.nodup_iff.mpr hknd
  exact List.eq_of_perm_of_sorted hpermSort hs1 hs2

/-- Truncation toward zero is monotone. -/
theorem ratTrunc_mono {p q : ℚ} (h : p ≤ q) : ratTrunc p ≤ ratTrunc q := by
  unfold ratTrunc
  by_cases hp : 0 ≤ p
  · by_cases hq : 0 ≤ q
    · rw [if_pos hp, if_pos hq]
      exact Int.floor_mono h
    · exact absurd (le_trans hp h) hq
  · by_cases hq : 0 ≤ q
    · rw [if_neg hp, if_pos hq]
      have h1 : (⌈p⌉ : ℤ) ≤ 0 := Int.ceil_le.mpr (by exact_mod_cast le_of_not_le hp)
      have h2 : (0 : ℤ) ≤ ⌊q⌋ := Int.le_floor.mpr (by exact_mod_cast hq)
      omega
    · rw [if_neg hp, if_neg hq]
      exact Int.ceil_mono h

/-- C2: on a non-empty all-numeric series with distinct labels,
`plot_time_hist` draws the bars at the integer-cast labels in ascending
order, each bar carrying the count of its own label, and the output is
independent of the input's iteration order. -/
theorem plot_time_hist_numeric_sorted (cs csPerm : CountSeries)
    (title : String) (xl yl : Option String) (fs : ℚ × ℚ) (w : Option ℚ)
    (ec : Option String) (hnum : allNumeric cs = true) ( _hne : cs ≠ [])
    (hperm : csPerm.Perm cs) (hnd : (cs.map (fun e => e.1)).Nodup) :
    List.Sorted (· ≤ ·) ((plot_time_hist cs title xl yl fs w ec).barX) ∧
    (((plot_time_hist cs title xl yl fs w ec).barX.zip
        (plot_time_hist cs title xl yl fs w ec).barVals)).Perm
      (cs.map (fun e => (((ratTrunc (labelKey e.1) : ℤ) : ℚ), e.2))) ∧
    plot_time_hist csPerm title xl yl fs w ec
      = plot_time_hist cs title xl yl fs w ec := by
  have hnum2 : allNumeric csPerm = true := by
    rw [allNumeric, List.all_eq_true] at hnum ⊢
    intro e he
    exact hnum e (hperm.subset he)
  have hbar : (plot_time_hist cs title xl yl fs w ec).barX
      = (sortIndex cs).map (fun e => ((ratTrunc (labelKey e.1) : ℤ) : ℚ)) := by
    simp [plot_time_hist, hnum]
  have hvals : (plot_time_hist cs title xl yl fs w ec).barVals
      = (sortIndex cs).map (fun e => e.2) := by
    simp [plot_time_hist, hnum]
  refine ⟨?_, ?_, ?_⟩
  · rw [hbar]
    have hsorted : List.Sorted leLabel (sortIndex cs) :=
      List.sorted_insertionSort leLabel cs
    exact List.Pairwise.map _ (fun a b hab => by
      exact_mod_cast ratTrunc_mono hab) hsorted
  · rw [hbar, hvals, List.zip_map']
    exact (List.perm_insertionSort leLabel cs).map _
  · have hsieq : sortIndex csPerm = sortIndex cs :=
      sortIndex_perm_eq cs csPerm hperm hnum hnd
    have hmean : series_mean csPerm = series_mean cs := by
      rw [series_mean, series_mean, (hperm.map (fun e => e.2)).sum_eq,
        hperm.length_eq]
    simp [plot_time_hist, hnum, hnum2, hsieq, hmean, hperm.length_eq]

/-- Witness for C2 at the series {3:10, 1:5, 2:7} named by the claim: bars
at [1, 2, 3] with values [5, 7, 10], and the same output as for the input
given in sorted order. -/
theorem plot_time_hist_numeric_sorted_witness :
    (plot_time_hist [(Label.num 3, 10), (Label.num 1, 5), (Label.num 2, 7)]
        "t" none none (8, 8) none none).barX = [1, 2, 3] ∧
    (plot_time_hist [(Label.num 3, 10), (Label.num 1, 5), (Label.num 2, 7)]
        "t" none none (8, 8) none none).barVals = [5, 7, 10] ∧
    plot_time_hist [(Label.num 3, 10), (Label.num 1, 5), (Label.num 2, 7)]
        "t" none none (8, 8) none none
      = plot_time_hist [(Label.num 1, 5), (Label.num 2, 7), (Label.num 3, 10)]
        "t" none none (8, 8) none none := by
  have h := plot_time_hist_numeric_sorted
    [(Label.num 1, 5), (Label.num 2, 7), (Label.num 3, 10)]
    [(Label.num 3, 10), (Label.num 1, 5), (Label.num 2, 7)]
    "t" none none (8, 8) none none (by decide) (by decide) (by decide)
    (by decide)
  refine ⟨?_, ?_, h.2.2⟩
  · rw [h.2.2]
    norm_num [plot_time_hist, allNumeric, Label.isNum, sortIndex,
      List.insertionSort, List.orderedInsert, leLabel, labelKey, ratTrunc]
  · rw [h.2.2]
    norm_num [plot_time_hist, allNumeric, Label.isNum, sortIndex,
      List.insertionSort, List.orderedInsert, leLabel, labelKey, ratTrunc]
